import Mathlib

/-!
Shallow embedding of the correlation-and-dispatch core of the
slack-linear-triage-agent repository (src/unnamed/part_000, with the two
handler entry points it calls in src/src/agent.ts), together with proofs
settling the frozen claims about it.

Conventions of the embedding:
- JavaScript strings that may be `undefined` are modelled as `Option String`;
  JS truthiness of such a value (`if (msg.user)`) is the predicate `truthy`
  below (defined means non-empty, since the empty string is falsy).
- JS `Map` objects are modelled as association lists with JS `Map` semantics
  (`mapGet`, `mapSet`, `mapDelete`); a JS `Set<string>` kept in insertion
  order is a `List`.
- Wall-clock times (`Date.now()`) are naturals counting milliseconds.
- The asynchronous drain loop of `processQueue` is modelled as a terminating
  recursion over the queue together with an explicit schedule `arrivals`,
  where `arrivals[i]` is the batch of items enqueued while the i-th
  dispatched item is being handled (every enqueue during a drain only
  appends to the buffer, which is exactly what the source's `enqueue` does).
- A handler that may throw is a function into `Except String Unit`.
-/

namespace Triage

/-- The seven work-item categories of `QueuedMessage.type`
(src/unnamed/part_000 lines 42-45). -/
inductive Category where
  | new
  | thread_reply
  | orphan_thread
  | deferred_followup
  | direct_command
  | message_edited
  | message_deleted
deriving DecidableEq

/-- Verdict actions returned by the external triager entry points.  The
union of the per-category closed sets (`created|duplicate|skipped|deferred|error`
for new messages, `created|updated|skipped|error` for orphan threads,
`no_action|created|error` for deferred follow-ups). -/
inductive TriageAction where
  | created
  | duplicate
  | updated
  | skipped
  | deferred
  | error
  | no_action
deriving DecidableEq

/-- A Slack file object, restricted to the fields the core reads
(src/unnamed/part_000 lines 392-398). -/
structure FileObj where
  id : String := ""
  name : String := ""
  mimetype : String := ""
  url_private : String := ""
  permalink : String := ""
deriving DecidableEq

/-- A Slack attachment object, restricted to the fields the core reads
(src/unnamed/part_000 lines 399-406). -/
structure AttachmentObj where
  text : Option String := none
  author_name : Option String := none
  author_id : Option String := none
  from_url : Option String := none
  footer : Option String := none
  ts : Option String := none
deriving DecidableEq

/-- The payload of a queued work item: the union of the fields the seven
enqueue sites of src/unnamed/part_000 put into `data`
(a `Record<string, unknown>` in the source); fields an enqueue site does not
set stay `none` / `[]`. -/
structure ItemData where
  text : Option String := none
  user : Option String := none
  ts : Option String := none
  channel : Option String := none
  files : List FileObj := []
  attachments : List AttachmentObj := []
  replyText : Option String := none
  userId : Option String := none
  threadTs : Option String := none
  messageTs : Option String := none
  ticketId : Option String := none
  ticketIdentifier : Option String := none
  isDuplicate : Option Bool := none
  isSameReporter : Option Bool := none
  originalContext : Option String := none
  commandText : Option String := none
  ticketContext : Option String := none
  newText : Option String := none
  previousText : Option String := none
deriving DecidableEq

/-- `QueuedMessage` (src/unnamed/part_000 lines 42-45). -/
structure QueuedMessage where
  type : Category
  data : ItemData
deriving DecidableEq

/-- JS truthiness of a `string | undefined` value: defined and non-empty. -/
def truthy : Option String → Bool
  | some s => !(s == "")
  | none => false

/-- `ThreadOutcome`: the value type of `threadTicketMap`
(src/unnamed/part_000 lines 96-104).  An unpopulated `ticketId` is the
empty string, as in the deferred creation path (line 527). -/
structure ThreadOutcome where
  ticketId : String
  ticketIdentifier : String
  createdAt : Nat
  isDuplicate : Bool
  isDeferred : Bool
  originalContext : Option String := none
  originalReporterId : Option String := none
deriving DecidableEq

/-- `MessageOutcome`: the value type of `messageTicketMap`
(src/unnamed/part_000 lines 117-124). -/
structure MessageOutcome where
  ticketId : String
  ticketIdentifier : String
  ticketUrl : Option String := none
  createdAt : Nat
  wasTriaged : Bool
  action : TriageAction
deriving DecidableEq

/-- `threadTicketMap`, as an insertion-ordered association list with unique
keys (JS `Map` semantics). -/
abbrev ThreadMap := List (String × ThreadOutcome)

/-- `messageTicketMap`, as an insertion-ordered association list with unique
keys (JS `Map` semantics). -/
abbrev MessageMap := List (String × MessageOutcome)

/-- JS `Map.get`: the value at the key, if present.  Note that `get`
performs no test of entry age. -/
def mapGet {β : Type} : List (String × β) → String → Option β
  | [], _ => none
  | e :: rest, k => if e.1 = k then some e.2 else mapGet rest k

/-- JS `Map.has`. -/
def mapContains {β : Type} (m : List (String × β)) (k : String) : Bool :=
  m.any (fun e => e.1 == k)

/-- JS `Map.set`: replace in place when the key exists (preserving entry
order), append otherwise. -/
def mapSet {β : Type} (m : List (String × β)) (k : String) (v : β) :
    List (String × β) :=
  if mapContains m k then m.map (fun e => if e.1 == k then (k, v) else e)
  else m ++ [(k, v)]

/-- JS `Map.delete`. -/
def mapDelete {β : Type} (m : List (String × β)) (k : String) :
    List (String × β) :=
  m.filter (fun e => !(e.1 == k))

/-- `maxAge` used by both cleanup sweeps: 24 hours in milliseconds
(src/unnamed/part_000 lines 108 and 128). -/
def maxAge : Nat := 24 * 60 * 60 * 1000

/-- `cleanupOldThreadMappings` (src/unnamed/part_000 lines 106-114): delete
every entry with `now - info.createdAt > maxAge`; `now` is `Date.now()` at
call time. -/
def cleanupOldThreadMappings (now : Nat) (m : ThreadMap) : ThreadMap :=
  m.filter (fun e => !(decide (now - e.2.createdAt > maxAge)))

/-- `cleanupOldMessageMappings` (src/unnamed/part_000 lines 126-134). -/
def cleanupOldMessageMappings (now : Nat) (m : MessageMap) : MessageMap :=
  m.filter (fun e => !(decide (now - e.2.createdAt > maxAge)))

/-- The dedup-set trim step (src/unnamed/part_000 lines 1081-1084): after an
insertion, if the set holds more than 1000 entries, evict the first 500 in
insertion order. -/
def dedupTrim {α : Type} (s : List α) : List α :=
  if s.length > 1000 then s.drop 500 else s

/-- One full dedup-set insertion against `processedMessages`
(src/unnamed/part_000 lines 1075-1084): an already-present timestamp leaves
the set unchanged (the event is dropped before this point), otherwise the
timestamp is appended and the trim step runs. -/
def dedupStep {α : Type} [DecidableEq α] (s : List α) (x : α) : List α :=
  if x ∈ s then s else dedupTrim (s ++ [x])

/-- The seven handler functions `processQueue` dispatches to
(src/unnamed/part_000 lines 49-57); a throwing handler is one returning
`Except.error`. -/
structure Handlers where
  processNewMessage : ItemData → Except String Unit
  processThreadReply : ItemData → Except String Unit
  processOrphanThread : ItemData → Except String Unit
  processDeferredFollowup : ItemData → Except String Unit
  processDirectCommand : ItemData → Except String Unit
  processEditedMessage : ItemData → Except String Unit
  processDeletedMessage : ItemData → Except String Unit

/-- The category dispatch inside the drain loop
(src/unnamed/part_000 lines 68-82). -/
def dispatchItem (h : Handlers) (item : QueuedMessage) : Except String Unit :=
  match item.type with
  | .new => h.processNewMessage item.data
  | .thread_reply => h.processThreadReply item.data
  | .orphan_thread => h.processOrphanThread item.data
  | .deferred_followup => h.processDeferredFollowup item.data
  | .direct_command => h.processDirectCommand item.data
  | .message_edited => h.processEditedMessage item.data
  | .message_deleted => h.processDeletedMessage item.data

/-- The catch block of the drain loop (src/unnamed/part_000 lines 83-85): a
failure is logged together with the item category and swallowed. -/
def logAfter (item : QueuedMessage) (r : Except String Unit)
    (log : List (Category × String)) : List (Category × String) :=
  match r with
  | .ok _ => log
  | .error e => (item.type, e) :: log

/-- The `while` drain loop of `processQueue` (src/unnamed/part_000 lines
65-86): shift the head of the queue, dispatch it (catching any failure),
and continue; `arrivals` lists, per dispatched item, the batch of items
enqueued (appended to the buffer) while that item was being handled.
Returns the dispatch trace (in dispatch order) and the error log. -/
def drainLoop (h : Handlers) :
    List QueuedMessage → List (List QueuedMessage) →
    List QueuedMessage × List (Category × String)
  | [], _ => ([], [])
  | item :: rest, [] =>
    let r := drainLoop h rest []
    (item :: r.1, logAfter item (dispatchItem h item) r.2)
  | item :: rest, a :: others =>
    let r := drainLoop h (rest ++ a) others
    (item :: r.1, logAfter item (dispatchItem h item) r.2)
termination_by q arrivals => (arrivals.length, q.length)

/-- `arrivalsFit n arrivals` says the schedule `arrivals` delivers every
batch during an active drain of a queue currently holding `n` items: each
batch is delivered during the handling of a dispatched item, so a dispatch
step must be available for it. -/
def arrivalsFit : Nat → List (List QueuedMessage) → Bool
  | _, [] => true
  | n, a :: others => decide (0 < n) && arrivalsFit (n - 1 + a.length) others

/-- The module state read and written by `processQueue` and `enqueue`:
`messageQueue` and the `isProcessing` latch
(src/unnamed/part_000 lines 46-47). -/
structure QueueState where
  messageQueue : List QueuedMessage
  isProcessing : Bool

/-- An enqueue (`messageQueue.push(...)` at any of the seven enqueue sites):
it only ever appends to the buffer. -/
def enqueue (s : QueueState) (m : QueuedMessage) : QueueState :=
  { s with messageQueue := s.messageQueue ++ [m] }

/-- `processQueue` (src/unnamed/part_000 lines 49-93): return immediately
when the latch is set or the queue is empty; otherwise set the latch, drain
the queue to exhaustion (handling items enqueued meanwhile), and clear the
latch.  Returns the final state, the dispatch trace and the error log. -/
def processQueue (h : Handlers) (s : QueueState)
    (arrivals : List (List QueuedMessage)) :
    QueueState × List QueuedMessage × List (Category × String) :=
  if s.isProcessing || s.messageQueue.isEmpty then (s, [], [])
  else
    let r := drainLoop h s.messageQueue arrivals
    (⟨[], false⟩, r.1, r.2)

/-- JS whitespace characters matched by `\s` (the ones expressible in the
message texts at issue): space, tab, line feed, carriage return, vertical
tab, form feed. -/
def isJsWhitespace (c : Char) : Bool :=
  c = ' ' || c = '\t' || c = '\n' || c = '\r' || c = '\x0b' || c = '\x0c'

/-- `String.prototype.trim`: strip whitespace from both ends. -/
def trimChars (l : List Char) : List Char :=
  ((l.dropWhile isJsWhitespace).reverse.dropWhile isJsWhitespace).reverse

/-- `replace(/\s+/g, " ")`: collapse every run of whitespace to one space. -/
def collapseWs : List Char → List Char
  | [] => []
  | [c] => if isJsWhitespace c then [' '] else [c]
  | a :: b :: rest =>
    if isJsWhitespace a && isJsWhitespace b then collapseWs (b :: rest)
    else (if isJsWhitespace a then ' ' else a) :: collapseWs (b :: rest)

/-- The edit-handler normalization `text.trim().replace(/\s+/g, " ")`
(src/unnamed/part_000 lines 905-906). -/
def normalizeText (s : String) : String :=
  String.mk (collapseWs (trimChars s.data))

/-- The record a `message_edited` dispatch hands to the external triager:
the argument of `handleMessageEdit` (src/unnamed/part_000 lines 914-921,
`EditedMessageInput` in src/src/agent.ts lines 1486-1493). -/
structure EditCall where
  ticketId : String
  ticketIdentifier : String
  originalText : String
  editedText : String
  userId : String
  action : TriageAction
deriving DecidableEq

/-- `processEditedMessageHandler` (src/unnamed/part_000 lines 878-922):
look up the MessageOutcome by message timestamp; no-op when absent, when
`wasTriaged` is false, or when old and new text normalize equal; otherwise
forward both texts plus the recorded action to the triager.  Returns the
triager call made, if any (the handler mutates no table). -/
def processEditedMessageHandler (msgMap : MessageMap)
    (messageTs newText previousText userId : String) : Option EditCall :=
  match mapGet msgMap messageTs with
  | none => none
  | some info =>
    if !info.wasTriaged then none
    else if normalizeText previousText == normalizeText newText then none
    else some ⟨info.ticketId, info.ticketIdentifier, previousText, newText,
               userId, info.action⟩

/-- The record a `message_deleted` dispatch hands to the external triager:
the argument of `handleMessageDelete` (src/unnamed/part_000 lines 950-955,
`DeletedMessageInput` in src/src/agent.ts lines 1567-1572). -/
structure DeleteCall where
  ticketId : String
  ticketIdentifier : String
  messageTs : String
  action : TriageAction
deriving DecidableEq

/-- `processDeletedMessageHandler` (src/unnamed/part_000 lines 925-962):
look up the MessageOutcome; no-op when absent or when `wasTriaged` is
false; otherwise call the triager with the recorded ticket, then delete the
MessageOutcome and, when a thread key was supplied with the event, the
corresponding ThreadOutcome.  Returns the triager call made (if any) and
the two tables after the handler. -/
def processDeletedMessageHandler (msgMap : MessageMap) (thrMap : ThreadMap)
    (messageTs : String) (threadTs : Option String) :
    Option DeleteCall × MessageMap × ThreadMap :=
  match mapGet msgMap messageTs with
  | none => (none, msgMap, thrMap)
  | some info =>
    if !info.wasTriaged then (none, msgMap, thrMap)
    else
      (some ⟨info.ticketId, info.ticketIdentifier, messageTs, info.action⟩,
       mapDelete msgMap messageTs,
       match threadTs with
       | some t => mapDelete thrMap t
       | none => thrMap)

/-- A verdict returned by a triager entry point, restricted to the fields
the correlation core reads; an absent `string | undefined` ticket field is
the empty string (falsy, like `undefined`). -/
structure TriageResult where
  action : TriageAction
  ticketId : String := ""
  ticketIdentifier : String := ""
  ticketUrl : Option String := none
deriving DecidableEq

/-- JS `a || b` on two possibly-empty strings. -/
def jsOr (a b : String) : String := if a ≠ "" then a else b

/-- The `threadTicketMap` write of `processNewMessage`
(src/unnamed/part_000 lines 514-537): on `created`/`duplicate` with a
ticket reference, track the thread with `isDeferred := false`; on
`deferred`, track it with empty ticket fields, `isDeferred := true` and the
original message text as context; otherwise leave the table alone. -/
def newMessageThreadUpdate (thrMap : ThreadMap)
    (msgTs msgUser msgText : String) (r : TriageResult) (now : Nat) :
    ThreadMap :=
  if (r.action == .created || r.action == .duplicate) &&
      (!(r.ticketId == "") || !(r.ticketIdentifier == "")) then
    mapSet thrMap msgTs
      ⟨jsOr r.ticketId r.ticketIdentifier, jsOr r.ticketIdentifier r.ticketId,
       now, r.action == .duplicate, false, none, some msgUser⟩
  else if r.action == .deferred then
    mapSet thrMap msgTs ⟨"", "", now, false, true, some msgText, some msgUser⟩
  else thrMap

/-- The `threadTicketMap` write of `processOrphanThreadHandler`
(src/unnamed/part_000 lines 711-721): on `created`/`updated` with a ticket
id, start tracking the thread. -/
def orphanThreadUpdate (thrMap : ThreadMap) (threadTs userId : String)
    (r : TriageResult) (now : Nat) : ThreadMap :=
  if (r.action == .created || r.action == .updated) && !(r.ticketId == "") then
    mapSet thrMap threadTs
      ⟨r.ticketId, jsOr r.ticketIdentifier r.ticketId, now,
       r.action == .updated, false, none, some userId⟩
  else thrMap

/-- The `threadTicketMap` upgrade of `processDeferredFollowupHandler`
(src/unnamed/part_000 lines 790-801): on `created` with a ticket id, if the
thread is still tracked, update the existing entry in place, populating the
ticket fields and flipping `isDeferred` to false. -/
def deferredFollowupUpdate (thrMap : ThreadMap) (threadTs : String)
    (r : TriageResult) : ThreadMap :=
  if r.action == .created && !(r.ticketId == "") then
    match mapGet thrMap threadTs with
    | some existing =>
      mapSet thrMap threadTs
        { existing with
            ticketId := r.ticketId,
            ticketIdentifier := jsOr r.ticketIdentifier r.ticketId,
            isDeferred := false }
    | none => thrMap
  else thrMap

/-- The mutual-exclusion invariant on a ThreadOutcome: `isDeferred` holds
exactly when the ticketId is unpopulated. -/
def threadInvariant (o : ThreadOutcome) : Prop :=
  o.isDeferred = true ↔ o.ticketId = ""

/-- The invariant, over every entry of the thread table. -/
def mapInvariant (m : ThreadMap) : Prop :=
  ∀ e ∈ m, threadInvariant e.2

/-- A message as it appears both in a `conversations.history` page (the
recovery scan) and in a live `app.message` event, restricted to the fields
the core reads. -/
structure SlackMsg where
  text : Option String := none
  user : Option String := none
  ts : Option String := none
  channel : Option String := none
  thread_ts : Option String := none
  bot_id : Option String := none
  subtype : Option String := none
  files : List FileObj := []
  attachments : List AttachmentObj := []
  reactions : List String := []
deriving DecidableEq

/-- `hasRobotReaction` (src/unnamed/part_000 lines 216-218): the message
carries the `robot_face` marker reaction. -/
def hasRobotReaction (m : SlackMsg) : Bool :=
  m.reactions.any (fun r => r == "robot_face")

/-- The membership/topic subtypes skipped by the ingest filter
(src/unnamed/part_000 line 236). -/
def skipSubtypes : List String :=
  ["channel_join", "channel_leave", "channel_topic", "channel_purpose"]

/-- `isProcessableMessage` (src/unnamed/part_000 lines 221-241): reject
bot-authored messages, thread replies, content-free messages,
membership/topic subtypes, and any subtype other than `file_share`. -/
def isProcessableMessage (m : SlackMsg) : Bool :=
  if truthy m.bot_id || m.subtype == some "bot_message" then false
  else if truthy m.thread_ts && m.thread_ts != m.ts then false
  else if !(truthy m.text || decide (0 < m.files.length) ||
            decide (0 < m.attachments.length)) then false
  else if truthy m.subtype && skipSubtypes.contains (m.subtype.getD "") then
    false
  else if truthy m.subtype && m.subtype != some "file_share" then false
  else true

/-- The backward collection pass of `recoverMissedMessages`
(src/unnamed/part_000 lines 334-355) over the channel history flattened
into one newest-first list (the `conversations.history` request is bounded
to a 7-day lookback and paged via a cursor; `break outer` stops every
page): walk forward (newest first), stop at the first message carrying the
marker reaction, and collect every processable message seen before it.
Returns the collected messages and whether the marker was found. -/
def collectMissed : List SlackMsg → List SlackMsg × Bool
  | [] => ([], false)
  | m :: rest =>
    if hasRobotReaction m then ([], true)
    else
      let r := collectMissed rest
      (if isProcessableMessage m then m :: r.1 else r.1, r.2)

/-- The `new` work item produced for one recovered message
(src/unnamed/part_000 lines 368-380); `channel` falls back to the
configured channel id when the history entry has none. -/
def mkRecoveredItem (channelId : String) (m : SlackMsg) : QueuedMessage :=
  ⟨.new,
   { text := m.text, user := m.user, ts := m.ts,
     channel := some (if truthy m.channel then m.channel.getD "" else channelId),
     files := m.files, attachments := m.attachments }⟩

/-- The work items `recoverMissedMessages` produces
(src/unnamed/part_000 lines 319-383): nothing when the marker was never
found and a non-empty backlog was collected (first-run guard), nothing when
the backlog is empty, otherwise one `new` item per collected message after
reversing into chronological order. -/
def recoveredItems (channelId : String) (history : List SlackMsg) :
    List QueuedMessage :=
  let r := collectMissed history
  if !r.2 && decide (0 < r.1.length) then []
  else if r.1.length == 0 then []
  else r.1.reverse.map (mkRecoveredItem channelId)

/-- The module state the ingest side mutates: the dedup set
`processedMessages` (insertion-ordered) and the message queue. -/
structure AppState where
  processedMessages : List String
  messageQueue : List QueuedMessage
deriving DecidableEq

/-- The full effect of `recoverMissedMessages` on the module state
(src/unnamed/part_000 lines 319-383): the produced items are pushed onto
the queue; the function contains no reference to `processedMessages`. -/
def recoverMissedMessages (channelId : String) (st : AppState)
    (history : List SlackMsg) : AppState :=
  { st with messageQueue := st.messageQueue ++ recoveredItems channelId history }

/-- The content guard of the live listener (src/unnamed/part_000 line 992). -/
def liveHasContent (m : SlackMsg) : Bool :=
  truthy m.text || decide (0 < m.attachments.length) ||
    decide (0 < m.files.length)

/-- `msg.text?.includes(mention)`: substring containment on the character
list. -/
def charsContain (needle : List Char) : List Char → Bool
  | [] => needle.isEmpty
  | c :: rest => needle.isPrefixOf (c :: rest) || charsContain needle rest

/-- The mention test of the live listener (src/unnamed/part_000 line 998). -/
def isBotMentioned (botUserId : String) (m : SlackMsg) : Bool :=
  match m.text with
  | some s => charsContain ("<@" ++ botUserId ++ ">").data s.data
  | none => false

/-- The `direct_command` item the live listener enqueues on a mention
(src/unnamed/part_000 lines 1000-1015); the ticket-context hint is the
tracked ticket identifier of the event's thread, if any (`|| null` turns an
empty identifier back into no hint). -/
def mkDirectCommandItem (thrMap : ThreadMap) (m : SlackMsg) : QueuedMessage :=
  let ticketInfo :=
    if truthy m.thread_ts then mapGet thrMap (m.thread_ts.getD "") else none
  ⟨.direct_command,
   { commandText := m.text, userId := m.user, channel := m.channel,
     threadTs := if truthy m.thread_ts then m.thread_ts else m.ts,
     messageTs := m.ts,
     ticketContext :=
       match ticketInfo with
       | some info =>
         if info.ticketIdentifier ≠ "" then some info.ticketIdentifier else none
       | none => none,
     files := m.files }⟩

/-- The classification of a non-mention reply (thread key differing from
its own timestamp) against the thread table
(src/unnamed/part_000 lines 1020-1070): `deferred_followup` carrying the
stored context when the entry is deferred, `thread_reply` carrying the
cached ticket, duplicate flag and a same-reporter comparison when it is
not, `orphan_thread` when no entry exists. -/
def classifyThreadReply (thrMap : ThreadMap) (m : SlackMsg) : QueuedMessage :=
  match mapGet thrMap (m.thread_ts.getD "") with
  | some info =>
    if info.isDeferred then
      ⟨.deferred_followup,
       { replyText := m.text, userId := m.user, channel := m.channel,
         threadTs := m.thread_ts, messageTs := m.ts, files := m.files,
         originalContext := info.originalContext }⟩
    else
      ⟨.thread_reply,
       { replyText := m.text, userId := m.user, channel := m.channel,
         threadTs := m.thread_ts, messageTs := m.ts,
         ticketId := some info.ticketId,
         ticketIdentifier := some info.ticketIdentifier,
         isDuplicate := some info.isDuplicate,
         isSameReporter := some (info.originalReporterId == m.user),
         files := m.files }⟩
  | none =>
    ⟨.orphan_thread,
     { replyText := m.text, userId := m.user, channel := m.channel,
       threadTs := m.thread_ts, messageTs := m.ts, files := m.files }⟩

/-- The `new` item the live listener enqueues for a top-level message
(src/unnamed/part_000 lines 1086-1096). -/
def newItemFromLive (m : SlackMsg) : QueuedMessage :=
  ⟨.new,
   { text := m.text, user := m.user, ts := m.ts, channel := m.channel,
     files := m.files, attachments := m.attachments }⟩

/-- The live `app.message` listener (src/unnamed/part_000 lines 965-1102),
up to its effect on the module state (each enqueue site also triggers
`processQueue`, which is modelled separately): filter, then classify into
direct command, thread reply, or top-level `new` message with dedup. -/
def appMessageHandler (botUserId channelId : String) (thrMap : ThreadMap)
    (st : AppState) (m : SlackMsg) : AppState :=
  if !liveHasContent m || !truthy m.user || !truthy m.ts || !truthy m.channel
  then st
  else if m.channel != some channelId then st
  else if truthy m.bot_id then st
  else if truthy m.subtype && m.subtype != some "file_share" then st
  else if isBotMentioned botUserId m then
    { st with messageQueue := st.messageQueue ++ [mkDirectCommandItem thrMap m] }
  else if truthy m.thread_ts && m.thread_ts != m.ts then
    { st with messageQueue := st.messageQueue ++ [classifyThreadReply thrMap m] }
  else if (m.ts.getD "") ∈ st.processedMessages then st
  else
    { processedMessages := dedupTrim (st.processedMessages ++ [m.ts.getD ""]),
      messageQueue := st.messageQueue ++ [newItemFromLive m] }

/-! Concrete example inputs used to exercise the definitions on closed
instances. -/

/-- Handlers that all succeed. -/
def okHandlers : Handlers :=
  ⟨fun _ => .ok (), fun _ => .ok (), fun _ => .ok (), fun _ => .ok (),
   fun _ => .ok (), fun _ => .ok (), fun _ => .ok ()⟩

/-- Handlers whose new-message handler throws. -/
def failingHandlers : Handlers :=
  { okHandlers with processNewMessage := fun _ => .error "boom" }

/-- A sample `new` work item. -/
def sampleItem1 : QueuedMessage := ⟨.new, {}⟩

/-- A sample `message_edited` work item. -/
def sampleItem2 : QueuedMessage := ⟨.message_edited, {}⟩

/-- A tracked, non-deferred ThreadOutcome created at epoch 0. -/
def staleThreadOutcome : ThreadOutcome :=
  ⟨"ticket-uuid-1", "ENG-7", 0, false, false, none, some "U1"⟩

/-- A deferred ThreadOutcome (empty ticket fields, original context kept). -/
def deferredThreadOutcome : ThreadOutcome :=
  ⟨"", "", 0, false, true, some "please hold off", some "U1"⟩

/-- A triaged MessageOutcome carrying ticket `ENG-42`. -/
def triagedMessageOutcome : MessageOutcome :=
  ⟨"ticket-uuid-42", "ENG-42", none, 0, true, .created⟩

/-- A skipped MessageOutcome (never triaged). -/
def skippedMessageOutcome : MessageOutcome :=
  ⟨"", "", none, 0, false, .skipped⟩

/-- A processable channel-history message collected by the recovery scan. -/
def recHistMsg : SlackMsg :=
  { text := some "the login page crashes", user := some "U1",
    ts := some "100.000001" }

/-- An older history message carrying the `robot_face` marker. -/
def recMarkerMsg : SlackMsg :=
  { text := some "older message", user := some "U2", ts := some "99.000001",
    reactions := ["robot_face"] }

/-- The live event for the same message the recovery scan collected. -/
def recLiveMsg : SlackMsg :=
  { text := some "the login page crashes", user := some "U1",
    ts := some "100.000001", channel := some "C0001" }

/-- A live thread-reply event in the monitored channel, replying to thread
root `100.000001`. -/
def replyMsg : SlackMsg :=
  { text := some "more details follow", user := some "U2",
    ts := some "101.000002", channel := some "C0001",
    thread_ts := some "100.000001" }

/-! Helper lemmas about the drain loop. -/

/-- The dispatch trace of a drain is the initial queue followed by the
arrival batches in order, whenever every batch arrives during the drain. -/
theorem drainLoop_trace (h : Handlers) :
    ∀ (arrivals : List (List QueuedMessage)) (q : List QueuedMessage),
      arrivalsFit q.length arrivals = true →
      (drainLoop h q arrivals).1 = q ++ arrivals.flatten := by
  intro arrivals
  induction arrivals with
  | nil =>
    intro q _
    induction q with
    | nil => simp [drainLoop]
    | cons item rest ih => simp [drainLoop, ih rfl]
  | cons a others ih =>
    intro q hfit
    cases q with
    | nil => simp [arrivalsFit] at hfit
    | cons item rest =>
      have hfit2 : arrivalsFit (rest ++ a).length others = true := by
        simp [arrivalsFit] at hfit
        simpa [List.length_append] using hfit
      simp [drainLoop, ih (rest ++ a) hfit2]

/-- The dispatch trace does not depend on the handlers (in particular not on
which of them throw). -/
theorem drainLoop_trace_handler_independent (h h' : Handlers) :
    ∀ (arrivals : List (List QueuedMessage)) (q : List QueuedMessage),
      (drainLoop h q arrivals).1 = (drainLoop h' q arrivals).1 := by
  intro arrivals
  induction arrivals with
  | nil =>
    intro q
    induction q with
    | nil => simp [drainLoop]
    | cons item rest ih => simp [drainLoop, ih]
  | cons a others ih =>
    intro q
    cases q with
    | nil => simp [drainLoop]
    | cons item rest => simp [drainLoop, ih]

/-- Anything in a log stays in it after `logAfter`. -/
theorem mem_logAfter (item : QueuedMessage) (r : Except String Unit)
    (log : List (Category × String)) (x : Category × String) (hx : x ∈ log) :
    x ∈ logAfter item r log := by
  cases r <;> simp [logAfter, hx]

/-- A dispatched item whose handler throws leaves a log entry carrying its
category and the error. -/
theorem drainLoop_log_mem (h : Handlers) :
    ∀ (arrivals : List (List QueuedMessage)) (q : List QueuedMessage)
      (item : QueuedMessage) (e : String),
      dispatchItem h item = .error e →
      item ∈ (drainLoop h q arrivals).1 →
      (item.type, e) ∈ (drainLoop h q arrivals).2 := by
  intro arrivals
  induction arrivals with
  | nil =>
    intro q
    induction q with
    | nil => intro item e _ hmem; simp [drainLoop] at hmem
    | cons it rest ih =>
      intro item e herr hmem
      simp only [drainLoop] at hmem ⊢
      rcases List.mem_cons.mp hmem with heq | hmem2
      · subst heq
        rw [herr]
        exact List.mem_cons_self _ _
      · exact mem_logAfter _ _ _ _ (ih item e herr hmem2)
  | cons a others ih =>
    intro q
    cases q with
    | nil => intro item e _ hmem; simp [drainLoop] at hmem
    | cons it rest =>
      intro item e herr hmem
      simp only [drainLoop] at hmem ⊢
      rcases List.mem_cons.mp hmem with heq | hmem2
      · subst heq
        rw [herr]
        exact List.mem_cons_self _ _
      · exact mem_logAfter _ _ _ _ (ih (rest ++ a) item e herr hmem2)

/-- Claim C1: work items are dispatched in exactly the order they were
enqueued (FIFO) and never two at a time — a call to `processQueue` while
the `isProcessing` latch is set returns without starting a second drain; an
enqueue only ever appends to the buffer and leaves the latch alone; and the
dispatch trace of a drain handles the buffered items followed by every
batch enqueued during the drain, in enqueue order. -/
theorem processQueue_fifo_single_flight (h : Handlers) (s : QueueState)
    (arrivals : List (List QueuedMessage)) (m : QueuedMessage) :
    (s.isProcessing = true → processQueue h s arrivals = (s, [], [])) ∧
    ((enqueue s m).messageQueue = s.messageQueue ++ [m] ∧
      (enqueue s m).isProcessing = s.isProcessing) ∧
    (arrivalsFit s.messageQueue.length arrivals = true →
      (drainLoop h s.messageQueue arrivals).1 =
        s.messageQueue ++ arrivals.flatten) := by
  refine ⟨fun hp => ?_, ⟨rfl, rfl⟩,
          fun hfit => drainLoop_trace h arrivals s.messageQueue hfit⟩
  simp [processQueue, hp]

/-- Witness for C1 at a concrete queue state with the latch set and one
batch arriving during the drain. -/
theorem processQueue_fifo_single_flight_witness :
    processQueue okHandlers ⟨[sampleItem1], true⟩ [[sampleItem2]] =
      (⟨[sampleItem1], true⟩, [], []) ∧
    (enqueue ⟨[sampleItem1], true⟩ sampleItem2).messageQueue =
      [sampleItem1] ++ [sampleItem2] ∧
    (drainLoop okHandlers [sampleItem1] [[sampleItem2]]).1 =
      [sampleItem1] ++ [[sampleItem2]].flatten := by
  obtain ⟨h1, h2, h3⟩ :=
    processQueue_fifo_single_flight okHandlers ⟨[sampleItem1], true⟩
      [[sampleItem2]] sampleItem2
  exact ⟨h1 rfl, h2.1, h3 (by decide)⟩

/-- Claim C2: a throwing handler is caught at the drain-loop boundary — the
dispatch trace is independent of which handlers throw (so an item failing
never prevents the next item from being dispatched, and the failure is not
propagated out of the loop), and every failure is logged together with the
failing item's category. -/
theorem drainLoop_error_isolation (h h' : Handlers)
    (q : List QueuedMessage) (arrivals : List (List QueuedMessage)) :
    (drainLoop h q arrivals).1 = (drainLoop h' q arrivals).1 ∧
    (∀ (item : QueuedMessage) (e : String),
      dispatchItem h item = .error e →
      item ∈ (drainLoop h q arrivals).1 →
      (item.type, e) ∈ (drainLoop h q arrivals).2) :=
  ⟨drainLoop_trace_handler_independent h h' arrivals q,
   fun item e he hm => drainLoop_log_mem h arrivals q item e he hm⟩

/-- Witness for C2: with the new-message handler throwing on item 1, the
trace equals the all-succeeding trace (item 2 still runs) and the failure
is logged with category `new`. -/
theorem drainLoop_error_isolation_witness :
    (drainLoop failingHandlers [sampleItem1, sampleItem2] []).1 =
      (drainLoop okHandlers [sampleItem1, sampleItem2] []).1 ∧
    (sampleItem1.type, "boom") ∈
      (drainLoop failingHandlers [sampleItem1, sampleItem2] []).2 := by
  obtain ⟨h1, h2⟩ :=
    drainLoop_error_isolation failingHandlers okHandlers
      [sampleItem1, sampleItem2] []
  exact ⟨h1, h2 sampleItem1 "boom" rfl (by simp [drainLoop])⟩

/-! Helper lemma about the dedup set. -/

/-- As long as the dedup set stays within the 1000-entry cap, inserting
distinct timestamps only appends. -/
theorem foldl_dedupStep_small {α : Type} [DecidableEq α] :
    ∀ (l acc : List α), (acc ++ l).Nodup → (acc ++ l).length ≤ 1000 →
      List.foldl dedupStep acc l = acc ++ l := by
  intro l
  induction l with
  | nil => intro acc _ _; simp
  | cons x xs ih =>
    intro acc hnd hlen
    have hx : x ∉ acc := by
      intro hmem
      exact (List.nodup_append.mp hnd).2.2 hmem (List.mem_cons_self x xs)
    have hstep : dedupStep acc x = acc ++ [x] := by
      have hlen2 : acc.length + (xs.length + 1) ≤ 1000 := by simpa using hlen
      have hle : ¬(acc ++ [x]).length > 1000 := by simp; omega
      unfold dedupStep dedupTrim
      rw [if_neg hx, if_neg hle]
    rw [List.foldl_cons, hstep]
    rw [ih (acc ++ [x]) (by simpa using hnd) (by simpa using hlen)]
    simp

/-- Claim C6: inserting 1001 distinct timestamps into the empty dedup set
leaves exactly the 501 most-recently-inserted ones — the result in
insertion order is the input with its oldest 500 entries evicted. -/
theorem dedup_cap_eviction {α : Type} [DecidableEq α] (l : List α)
    (h1 : l.Nodup) (h2 : l.length = 1001) :
    List.foldl dedupStep ([] : List α) l = l.drop 500 ∧
    (List.foldl dedupStep ([] : List α) l).length = 501 := by
  have hsplit : l.take 1000 ++ l.drop 1000 = l := List.take_append_drop 1000 l
  obtain ⟨x, hx⟩ : ∃ x, l.drop 1000 = [x] := by
    apply List.length_eq_one.mp
    simp [h2]
  have htake : List.foldl dedupStep ([] : List α) (l.take 1000) = l.take 1000 := by
    apply foldl_dedupStep_small
    · simpa using (List.take_sublist 1000 l).nodup h1
    · simp [h2]
  have hxtake : x ∉ l.take 1000 := by
    intro hmem
    rw [← hsplit] at h1
    refine (List.nodup_append.mp h1).2.2 hmem ?_
    simp [hx]
  have hmain : List.foldl dedupStep ([] : List α) l = l.drop 500 := by
    conv_lhs => rw [← hsplit]
    rw [List.foldl_append, htake, hx]
    have hlen : (l.take 1000 ++ [x]).length > 1000 := by
      rw [← hx, hsplit] at *
      simp [h2]
    calc List.foldl dedupStep (l.take 1000) [x]
        = dedupStep (l.take 1000) x := by simp
      _ = (l.take 1000 ++ [x]).drop 500 := by
          unfold dedupStep dedupTrim
          rw [if_neg hxtake, if_pos hlen]
      _ = l.drop 500 := by rw [← hx, hsplit]
  refine ⟨hmain, ?_⟩
  rw [hmain]
  simp [h2]

/-- Witness for C6 on the 1001 distinct timestamps `0, …, 1000`. -/
theorem dedup_cap_eviction_witness :
    (List.range 1001).Nodup ∧ (List.range 1001).length = 1001 ∧
    List.foldl dedupStep ([] : List Nat) (List.range 1001) =
      (List.range 1001).drop 500 := by
  refine ⟨List.nodup_range 1001, by simp, ?_⟩
  exact (dedup_cap_eviction (List.range 1001) (List.nodup_range 1001) (by simp)).1

/-! Helper lemmas about association-list maps. -/

/-- A key outside the key set is not found. -/
theorem mapGet_eq_none_of_not_mem_keys {β : Type} :
    ∀ (m : List (String × β)) (k : String),
      k ∉ m.map Prod.fst → mapGet m k = none := by
  intro m
  induction m with
  | nil => intro k _; rfl
  | cons e rest ih =>
    intro k hk
    simp only [List.map_cons, List.mem_cons, not_or] at hk
    rw [mapGet, if_neg (fun h => hk.1 h.symm)]
    exact ih k hk.2

/-- Filtering cannot put a key into the map. -/
theorem mapGet_filter_eq_none {β : Type} (p : String × β → Bool) :
    ∀ (m : List (String × β)) (k : String),
      k ∉ m.map Prod.fst → mapGet (m.filter p) k = none := by
  intro m k hk
  apply mapGet_eq_none_of_not_mem_keys
  intro hmem
  apply hk
  obtain ⟨e, he, hfe⟩ := List.mem_map.mp hmem
  exact List.mem_map.mpr ⟨e, (List.mem_filter.mp he).1, hfe⟩

/-- On a map with unique keys, a lookup after a filter finds the entry the
lookup found before exactly when the filter keeps it. -/
theorem mapGet_filter {β : Type} (p : String × β → Bool) :
    ∀ (m : List (String × β)) (k : String) (o : β),
      (m.map Prod.fst).Nodup → mapGet m k = some o →
      mapGet (m.filter p) k = if p (k, o) then some o else none := by
  intro m
  induction m with
  | nil => intro k o _ hget; simp [mapGet] at hget
  | cons e rest ih =>
    intro k o hnd hget
    rw [mapGet] at hget
    simp only [List.map_cons, List.nodup_cons] at hnd
    by_cases hek : e.1 = k
    · rw [if_pos hek] at hget
      have he : e = (k, o) := Prod.ext hek (Option.some.inj hget)
      subst he
      rw [List.filter_cons]
      by_cases hp : p (k, o)
      · simp only [hp, if_pos]
        rw [mapGet, if_pos rfl]
      · simp only [hp, Bool.false_eq_true, if_neg, if_false]
        exact mapGet_filter_eq_none p rest k (hek ▸ hnd.1)
    · rw [if_neg hek] at hget
      rw [List.filter_cons]
      by_cases hp : p e
      · simp only [hp, if_pos]
        rw [mapGet, if_neg hek]
        exact ih k o hnd.2 hget
      · simp only [hp, Bool.false_eq_true, if_neg, if_false]
        exact ih k o hnd.2 hget

/-- Claim C3, corrected: the sweeps do apply the 24-hour bound at their own
call time — an entry is kept by a sweep run 23h59m after its creation and
removed by a sweep run 24h01m after it — but the lookup itself applies no
age bound (see the counterexample), so the entry is absent at T+24h01m only
once a sweep has run. -/
theorem ttl_sweep_bounds (tm : ThreadMap) (mm : MessageMap)
    (k1 k2 : String) (o : ThreadOutcome) (mo : MessageOutcome)
    (hnd1 : (tm.map Prod.fst).Nodup) (h1 : mapGet tm k1 = some o)
    (hnd2 : (mm.map Prod.fst).Nodup) (h2 : mapGet mm k2 = some mo) :
    mapGet (cleanupOldThreadMappings (o.createdAt + 86340000) tm) k1 = some o ∧
    mapGet (cleanupOldThreadMappings (o.createdAt + 86460000) tm) k1 = none ∧
    mapGet (cleanupOldMessageMappings (mo.createdAt + 86340000) mm) k2 =
      some mo ∧
    mapGet (cleanupOldMessageMappings (mo.createdAt + 86460000) mm) k2 =
      none := by
  refine ⟨?_, ?_, ?_, ?_⟩
  · rw [cleanupOldThreadMappings, mapGet_filter _ tm k1 o hnd1 h1]
    simp [maxAge]
  · rw [cleanupOldThreadMappings, mapGet_filter _ tm k1 o hnd1 h1]
    simp [maxAge]
  · rw [cleanupOldMessageMappings, mapGet_filter _ mm k2 mo hnd2 h2]
    simp [maxAge]
  · rw [cleanupOldMessageMappings, mapGet_filter _ mm k2 mo hnd2 h2]
    simp [maxAge]

/-- Witness for the corrected C3 on singleton tables. -/
theorem ttl_sweep_bounds_witness :
    mapGet (cleanupOldThreadMappings (staleThreadOutcome.createdAt + 86340000)
      [("100.000001", staleThreadOutcome)]) "100.000001" =
        some staleThreadOutcome ∧
    mapGet (cleanupOldThreadMappings (staleThreadOutcome.createdAt + 86460000)
      [("100.000001", staleThreadOutcome)]) "100.000001" = none ∧
    mapGet (cleanupOldMessageMappings
      (triagedMessageOutcome.createdAt + 86460000)
      [("100.000001", triagedMessageOutcome)]) "100.000001" = none := by
  obtain ⟨ha, hb, _, hd⟩ :=
    ttl_sweep_bounds [("100.000001", staleThreadOutcome)]
      [("100.000001", triagedMessageOutcome)] "100.000001" "100.000001"
      staleThreadOutcome triagedMessageOutcome
      (by simp) (by rw [mapGet, if_pos rfl]) (by simp)
      (by rw [mapGet, if_pos rfl])
  exact ⟨ha, hb, hd⟩

/-- Counterexample to C3 as stated: the claim says no entry is ever
returned by a lookup after it has exceeded the TTL, with lookup applying
the 24-hour bound from the wall clock at call time.  But `Map.get` takes no
clock: an entry created at time 0 is still returned by a lookup performed
at wall-clock time 24h01m (86460000 ms), an age strictly beyond `maxAge` —
the code's lookups (src/unnamed/part_000 lines 893, 936, 1001, 1021) test
no age, and the sweeps run only after writes. -/
theorem lookup_ignores_ttl_counterexample :
    mapGet [("100.000001", staleThreadOutcome)] "100.000001" =
      some staleThreadOutcome ∧
    86460000 - staleThreadOutcome.createdAt > maxAge := by
  constructor
  · rw [mapGet, if_pos rfl]
  · decide

/-! Helper lemma about the recovery collection pass. -/

/-- Scanning a history whose marker-free prefix is `pre` followed by a
marker message collects exactly the processable messages of `pre` and
reports the marker found. -/
theorem collectMissed_append_marker :
    ∀ (pre : List SlackMsg) (m : SlackMsg) (post : List SlackMsg),
      (∀ x ∈ pre, hasRobotReaction x = false) → hasRobotReaction m = true →
      collectMissed (pre ++ m :: post) =
        (pre.filter isProcessableMessage, true) := by
  intro pre
  induction pre with
  | nil => intro m post _ hm; simp [collectMissed, hm]
  | cons x xs ih =>
    intro m post hpre hm
    have hx : hasRobotReaction x = false := hpre x (List.mem_cons_self x xs)
    have hrest := ih m post (fun y hy => hpre y (List.mem_cons_of_mem x hy)) hm
    simp only [List.cons_append, collectMissed, hx, Bool.false_eq_true,
      if_false, hrest, List.filter_cons]
    by_cases hp : isProcessableMessage x
    · simp [hp, hrest]
    · simp [hp, hrest]

/-- Claim C5: the recovery scan (walking the 7-day-bounded channel history
newest first) produces zero work items when the marker is never found and
at least one processable message was collected (first-run guard), and when
the marker is found after collecting the processable messages of the
marker-free prefix it produces exactly one `new` item per collected
message, in chronological (oldest-first) order. -/
theorem recovery_marker_guard (chanId : String) (history : List SlackMsg)
    (pre : List SlackMsg) (m : SlackMsg) (post : List SlackMsg) :
    ((collectMissed history).2 = false → (collectMissed history).1 ≠ [] →
      recoveredItems chanId history = []) ∧
    ((∀ x ∈ pre, hasRobotReaction x = false) → hasRobotReaction m = true →
      recoveredItems chanId (pre ++ m :: post) =
        (pre.filter isProcessableMessage).reverse.map (mkRecoveredItem chanId) ∧
      (recoveredItems chanId (pre ++ m :: post)).length =
        (pre.filter isProcessableMessage).length ∧
      ∀ it ∈ recoveredItems chanId (pre ++ m :: post),
        it.type = Category.new) := by
  constructor
  · intro hfound hne
    rw [recoveredItems]
    simp [hfound, List.length_pos.mpr hne]
  · intro hpre hm
    have hc := collectMissed_append_marker pre m post hpre hm
    have hmain : recoveredItems chanId (pre ++ m :: post) =
        (pre.filter isProcessableMessage).reverse.map (mkRecoveredItem chanId) := by
      rw [recoveredItems, hc]
      by_cases hemp : pre.filter isProcessableMessage = []
      · simp [hemp]
      · simp [hemp, List.length_eq_zero]
    refine ⟨hmain, ?_, ?_⟩
    · rw [hmain]; simp
    · intro it hit
      rw [hmain] at hit
      obtain ⟨a, _, ha⟩ := List.mem_map.mp hit
      rw [← ha]
      rfl

/-- Witness for C5: with no marker in the history the backlog is dropped;
with the marker after one processable message exactly that message comes
back as a `new` item. -/
theorem recovery_marker_guard_witness :
    recoveredItems "C0001" [recHistMsg] = [] ∧
    recoveredItems "C0001" ([recHistMsg] ++ recMarkerMsg :: []) =
      ([recHistMsg].filter isProcessableMessage).reverse.map
        (mkRecoveredItem "C0001") := by
  obtain ⟨h1, h2⟩ :=
    recovery_marker_guard "C0001" [recHistMsg] [recHistMsg] recMarkerMsg []
  refine ⟨h1 (by decide) (by decide), ?_⟩
  exact (h2 (by decide) (by decide)).1

/-- Claim C4, corrected: recovery reverses the backlog into chronological
order and produces the `new` work items, but adds nothing to the dedup set
(`recoverMissedMessages` never references `processedMessages`), so a live
event carrying a recovered message's timestamp that arrives after the scan
passes the dedup check and enqueues the message a second time. -/
theorem recovery_leaves_dedup_unchanged (chanId botId : String)
    (st : AppState) (history : List SlackMsg) (thrMap : ThreadMap)
    (m : SlackMsg) (t : String) :
    ((recoverMissedMessages chanId st history).processedMessages =
        st.processedMessages ∧
      (recoverMissedMessages chanId st history).messageQueue =
        st.messageQueue ++ recoveredItems chanId history) ∧
    (liveHasContent m = true → truthy m.user = true → m.ts = some t →
      ¬t = "" → truthy m.channel = true → m.channel = some chanId →
      truthy m.bot_id = false →
      (truthy m.subtype && m.subtype != some "file_share") = false →
      isBotMentioned botId m = false →
      (truthy m.thread_ts && m.thread_ts != m.ts) = false →
      t ∉ st.processedMessages →
      appMessageHandler botId chanId thrMap st m =
        ⟨dedupTrim (st.processedMessages ++ [t]),
         st.messageQueue ++ [newItemFromLive m]⟩) := by
  refine ⟨⟨rfl, rfl⟩, ?_⟩
  intro hcontent huser hts htne hchant hchan hbot hsub hmention hthread hdedup
  have htst : truthy m.ts = true := by rw [hts]; simp [truthy, htne]
  rw [appMessageHandler]
  rw [if_neg (by simp [hcontent, huser, htst, hchant])]
  rw [if_neg (by simp [hchan])]
  rw [if_neg (by simp [hbot])]
  rw [if_neg (by simp [hsub])]
  rw [if_neg (by simp [hmention])]
  rw [if_neg (by simp [hthread])]
  rw [if_neg (by simpa [hts] using hdedup)]
  simp [hts]

/-- Counterexample to C4 as stated: recovering the message with timestamp
`100.000001` leaves the dedup set empty (nothing is "added to the dedup set
at the moment its work item is produced"), and the live event carrying the
same timestamp is enqueued a second time. -/
theorem recovery_dedup_counterexample :
    (recoverMissedMessages "C0001" ⟨[], []⟩
      [recHistMsg, recMarkerMsg]).processedMessages = [] ∧
    (recoverMissedMessages "C0001" ⟨[], []⟩
      [recHistMsg, recMarkerMsg]).messageQueue.map (fun i => i.data.ts) =
      [some "100.000001"] ∧
    (appMessageHandler "B1" "C0001" []
      (recoverMissedMessages "C0001" ⟨[], []⟩ [recHistMsg, recMarkerMsg])
      recLiveMsg).messageQueue.map (fun i => i.data.ts) =
      [some "100.000001", some "100.000001"] := by
  refine ⟨rfl, ?_, ?_⟩ <;> decide

/-- Witness for the corrected C4: the same concrete scenario, obtained by
applying the corrected theorem. -/
theorem recovery_leaves_dedup_unchanged_witness :
    (recoverMissedMessages "C0001" ⟨[], []⟩
      [recHistMsg, recMarkerMsg]).processedMessages = [] ∧
    appMessageHandler "B1" "C0001" []
      (⟨[], recoveredItems "C0001" [recHistMsg, recMarkerMsg]⟩ : AppState)
      recLiveMsg =
      ⟨dedupTrim ([] ++ ["100.000001"]),
       recoveredItems "C0001" [recHistMsg, recMarkerMsg] ++
         [newItemFromLive recLiveMsg]⟩ := by
  obtain ⟨ha, hb⟩ :=
    recovery_leaves_dedup_unchanged "C0001" "B1"
      (⟨[], recoveredItems "C0001" [recHistMsg, recMarkerMsg]⟩ : AppState)
      [recHistMsg, recMarkerMsg] [] recLiveMsg "100.000001"
  refine ⟨ha.1, ?_⟩
  exact hb rfl rfl rfl (by decide) rfl rfl rfl rfl (by decide) rfl
    (by simp)

/-- Claim C7: a non-mention reply whose thread key differs from its own
timestamp is enqueued as the classification of the thread table entry for
its thread key: `deferred_followup` carrying the stored original deferred
context when the entry has `isDeferred = true`; `thread_reply` carrying the
cached ticket id and identifier, the duplicate flag, and a same-reporter
flag comparing the reply author to the stored original reporter when
`isDeferred = false`; and `orphan_thread` when no entry exists. -/
theorem classify_reply_cases (botId chanId : String) (thrMap : ThreadMap)
    (st : AppState) (m : SlackMsg) (t : String)
    (hcontent : liveHasContent m = true) (huser : truthy m.user = true)
    (hts : truthy m.ts = true) (hchant : truthy m.channel = true)
    (hchan : m.channel = some chanId) (hbot : truthy m.bot_id = false)
    (hsub : (truthy m.subtype && m.subtype != some "file_share") = false)
    (hmention : isBotMentioned botId m = false)
    (hthread : m.thread_ts = some t) (htne : ¬t = "")
    (hne : m.ts ≠ some t) :
    appMessageHandler botId chanId thrMap st m =
      { st with messageQueue :=
          st.messageQueue ++ [classifyThreadReply thrMap m] } ∧
    (∀ info, mapGet thrMap t = some info → info.isDeferred = true →
      classifyThreadReply thrMap m =
        ⟨.deferred_followup,
         { replyText := m.text, userId := m.user, channel := m.channel,
           threadTs := m.thread_ts, messageTs := m.ts, files := m.files,
           originalContext := info.originalContext }⟩) ∧
    (∀ info, mapGet thrMap t = some info → info.isDeferred = false →
      classifyThreadReply thrMap m =
        ⟨.thread_reply,
         { replyText := m.text, userId := m.user, channel := m.channel,
           threadTs := m.thread_ts, messageTs := m.ts,
           ticketId := some info.ticketId,
           ticketIdentifier := some info.ticketIdentifier,
           isDuplicate := some info.isDuplicate,
           isSameReporter := some (info.originalReporterId == m.user),
           files := m.files }⟩) ∧
    (mapGet thrMap t = none →
      classifyThreadReply thrMap m =
        ⟨.orphan_thread,
         { replyText := m.text, userId := m.user, channel := m.channel,
           threadTs := m.thread_ts, messageTs := m.ts,
           files := m.files }⟩) := by
  refine ⟨?_, ?_, ?_, ?_⟩
  · rw [appMessageHandler]
    rw [if_neg (by simp [hcontent, huser, hts, hchant])]
    rw [if_neg (by simp [hchan])]
    rw [if_neg (by simp [hbot])]
    rw [if_neg (by simp [hsub])]
    rw [if_neg (by simp [hmention])]
    rw [if_pos (by simp [hthread, truthy, htne]; exact Ne.symm hne)]
  · intro info hget hdef
    rw [classifyThreadReply, hthread]
    simp only [Option.getD_some, hget, hdef, if_pos]
  · intro info hget hdef
    rw [classifyThreadReply, hthread]
    simp only [Option.getD_some, hget, hdef, Bool.false_eq_true, if_false]
  · intro hget
    rw [classifyThreadReply, hthread]
    simp only [Option.getD_some, hget]

/-- Witness for C7: the concrete reply `replyMsg` against a deferred entry,
a tracked entry, and an empty thread table. -/
theorem classify_reply_cases_witness :
    appMessageHandler "B1" "C0001" [("100.000001", deferredThreadOutcome)]
      ⟨[], []⟩ replyMsg =
      ⟨[], [] ++ [classifyThreadReply
        [("100.000001", deferredThreadOutcome)] replyMsg]⟩ ∧
    classifyThreadReply [("100.000001", deferredThreadOutcome)] replyMsg =
      ⟨.deferred_followup,
       { replyText := replyMsg.text, userId := replyMsg.user,
         channel := replyMsg.channel, threadTs := replyMsg.thread_ts,
         messageTs := replyMsg.ts, files := replyMsg.files,
         originalContext := deferredThreadOutcome.originalContext }⟩ ∧
    classifyThreadReply [("100.000001", staleThreadOutcome)] replyMsg =
      ⟨.thread_reply,
       { replyText := replyMsg.text, userId := replyMsg.user,
         channel := replyMsg.channel, threadTs := replyMsg.thread_ts,
         messageTs := replyMsg.ts,
         ticketId := some staleThreadOutcome.ticketId,
         ticketIdentifier := some staleThreadOutcome.ticketIdentifier,
         isDuplicate := some staleThreadOutcome.isDuplicate,
         isSameReporter :=
           some (staleThreadOutcome.originalReporterId == replyMsg.user),
         files := replyMsg.files }⟩ ∧
    classifyThreadReply [] replyMsg =
      ⟨.orphan_thread,
       { replyText := replyMsg.text, userId := replyMsg.user,
         channel := replyMsg.channel, threadTs := replyMsg.thread_ts,
         messageTs := replyMsg.ts, files := replyMsg.files }⟩ := by
  obtain ⟨ha, hb, _, _⟩ :=
    classify_reply_cases "B1" "C0001" [("100.000001", deferredThreadOutcome)]
      ⟨[], []⟩ replyMsg "100.000001" rfl rfl rfl rfl rfl rfl rfl (by decide)
      rfl (by decide) (by decide)
  obtain ⟨_, _, hc, _⟩ :=
    classify_reply_cases "B1" "C0001" [("100.000001", staleThreadOutcome)]
      ⟨[], []⟩ replyMsg "100.000001" rfl rfl rfl rfl rfl rfl rfl (by decide)
      rfl (by decide) (by decide)
  obtain ⟨_, _, _, hd⟩ :=
    classify_reply_cases "B1" "C0001" [] ⟨[], []⟩ replyMsg "100.000001"
      rfl rfl rfl rfl rfl rfl rfl (by decide) rfl (by decide) (by decide)
  exact ⟨ha, hb deferredThreadOutcome (by decide) rfl,
         hc staleThreadOutcome (by decide) rfl, hd (by decide)⟩

/-- Claim C8: a `message_deleted` work item whose timestamp has a
MessageOutcome with `wasTriaged = true` produces a triager call referencing
the recorded ticket and then removes the MessageOutcome and — when a thread
key was supplied with the event — the corresponding ThreadOutcome; when the
MessageOutcome is absent or `wasTriaged` is false, no triager call is made
and both tables are unchanged. -/
theorem delete_handler_spec (msgMap : MessageMap) (thrMap : ThreadMap)
    (messageTs : String) (threadTs : Option String) :
    (mapGet msgMap messageTs = none →
      processDeletedMessageHandler msgMap thrMap messageTs threadTs =
        (none, msgMap, thrMap)) ∧
    (∀ info, mapGet msgMap messageTs = some info → info.wasTriaged = false →
      processDeletedMessageHandler msgMap thrMap messageTs threadTs =
        (none, msgMap, thrMap)) ∧
    (∀ info, mapGet msgMap messageTs = some info → info.wasTriaged = true →
      processDeletedMessageHandler msgMap thrMap messageTs threadTs =
        (some ⟨info.ticketId, info.ticketIdentifier, messageTs, info.action⟩,
         mapDelete msgMap messageTs,
         match threadTs with
         | some t => mapDelete thrMap t
         | none => thrMap)) := by
  refine ⟨fun h => ?_, fun info h hw => ?_, fun info h hw => ?_⟩
  · rw [processDeletedMessageHandler.eq_def, h]
  · rw [processDeletedMessageHandler.eq_def, h]
    simp [hw]
  · rw [processDeletedMessageHandler.eq_def, h]
    simp [hw]

/-- Witness for C8: deleting the message tracked as ticket `ENG-42`
produces the call referencing `ENG-42` and clears both tables; deleting a
skipped message is a no-op. -/
theorem delete_handler_spec_witness :
    processDeletedMessageHandler [("100.000001", triagedMessageOutcome)]
      [("100.000001", staleThreadOutcome)] "100.000001"
      (some "100.000001") =
      (some ⟨triagedMessageOutcome.ticketId,
             triagedMessageOutcome.ticketIdentifier, "100.000001",
             triagedMessageOutcome.action⟩,
       mapDelete [("100.000001", triagedMessageOutcome)] "100.000001",
       mapDelete [("100.000001", staleThreadOutcome)] "100.000001") ∧
    processDeletedMessageHandler [("100.000001", skippedMessageOutcome)]
      [("100.000001", staleThreadOutcome)] "100.000001"
      (some "100.000001") =
      (none, [("100.000001", skippedMessageOutcome)],
       [("100.000001", staleThreadOutcome)]) := by
  obtain ⟨_, _, hc⟩ :=
    delete_handler_spec [("100.000001", triagedMessageOutcome)]
      [("100.000001", staleThreadOutcome)] "100.000001" (some "100.000001")
  obtain ⟨_, hb, _⟩ :=
    delete_handler_spec [("100.000001", skippedMessageOutcome)]
      [("100.000001", staleThreadOutcome)] "100.000001" (some "100.000001")
  exact ⟨hc triagedMessageOutcome (by decide) rfl,
         hb skippedMessageOutcome (by decide) rfl⟩

/-- Claim C9: a `message_edited` work item makes no triager call when the
MessageOutcome is absent, when its `wasTriaged` flag is false, or when the
previous and new texts are equal after normalization (trim plus collapsing
internal whitespace runs) — in particular `"Login fails  "` and
`"Login fails"` normalize equal; otherwise it forwards both the original
and edited texts plus the recorded action to the triager. -/
theorem edit_handler_spec (msgMap : MessageMap)
    (messageTs newText previousText userId : String) :
    (mapGet msgMap messageTs = none →
      processEditedMessageHandler msgMap messageTs newText previousText
        userId = none) ∧
    (∀ info, mapGet msgMap messageTs = some info → info.wasTriaged = false →
      processEditedMessageHandler msgMap messageTs newText previousText
        userId = none) ∧
    (∀ info, mapGet msgMap messageTs = some info →
      normalizeText previousText = normalizeText newText →
      processEditedMessageHandler msgMap messageTs newText previousText
        userId = none) ∧
    normalizeText "Login fails  " = normalizeText "Login fails" ∧
    (∀ info, mapGet msgMap messageTs = some info → info.wasTriaged = true →
      ¬normalizeText previousText = normalizeText newText →
      processEditedMessageHandler msgMap messageTs newText previousText
        userId =
        some ⟨info.ticketId, info.ticketIdentifier, previousText, newText,
              userId, info.action⟩) := by
  refine ⟨fun h => ?_, fun info h hw => ?_, fun info h heq => ?_,
          by decide, fun info h hw hne => ?_⟩
  · rw [processEditedMessageHandler.eq_def, h]
  · rw [processEditedMessageHandler.eq_def, h]
    simp [hw]
  · rw [processEditedMessageHandler.eq_def, h]
    by_cases hw : info.wasTriaged <;> simp [hw, heq]
  · rw [processEditedMessageHandler.eq_def, h]
    simp [hw, hne]

/-- Witness for C9: the pure-whitespace edit of the spec example makes no
call, and a real edit of the same tracked message forwards both texts and
the recorded action. -/
theorem edit_handler_spec_witness :
    processEditedMessageHandler [("100.000001", triagedMessageOutcome)]
      "100.000001" "Login fails" "Login fails  " "U1" = none ∧
    processEditedMessageHandler [("100.000001", triagedMessageOutcome)]
      "100.000001" "Login fails on mobile too" "Login fails  " "U1" =
      some ⟨triagedMessageOutcome.ticketId,
            triagedMessageOutcome.ticketIdentifier, "Login fails  ",
            "Login fails on mobile too", "U1",
            triagedMessageOutcome.action⟩ := by
  obtain ⟨_, _, hc, _, _⟩ :=
    edit_handler_spec [("100.000001", triagedMessageOutcome)] "100.000001"
      "Login fails" "Login fails  " "U1"
  obtain ⟨_, _, _, _, he⟩ :=
    edit_handler_spec [("100.000001", triagedMessageOutcome)] "100.000001"
      "Login fails on mobile too" "Login fails  " "U1"
  exact ⟨hc triagedMessageOutcome (by decide) (by decide),
         he triagedMessageOutcome (by decide) rfl (by decide)⟩

/-! Helper lemmas about `mapSet`. -/

/-- Every entry of `mapSet m k v` is the new entry or an old one. -/
theorem mem_mapSet {β : Type} (m : List (String × β)) (k : String) (v : β) :
    ∀ e ∈ mapSet m k v, e = (k, v) ∨ e ∈ m := by
  intro e he
  rw [mapSet] at he
  split at he
  · obtain ⟨a, ha, hfe⟩ := List.mem_map.mp he
    by_cases h : a.1 == k
    · left; rw [← hfe, if_pos h]
    · right; rw [← hfe, if_neg h]; exact ha
  · rcases List.mem_append.mp he with h | h
    · right; exact h
    · left; simpa using h

/-- Replacing every entry at key `k` makes a lookup of `k` find the new
value exactly when the key was present. -/
theorem mapGet_map_replace {β : Type} (k : String) (v : β) :
    ∀ m : List (String × β),
      mapGet (m.map (fun e => if e.1 == k then (k, v) else e)) k =
        if mapContains m k then some v else none := by
  intro m
  induction m with
  | nil => simp [mapGet, mapContains]
  | cons e rest ih =>
    by_cases h : e.1 = k
    · simp [mapGet, mapContains, h]
    · have hb : (e.1 == k) = false := by simp [h]
      simp only [List.map_cons, hb, Bool.false_eq_true, if_false, mapGet,
        if_neg h, ih, mapContains, List.any_cons, Bool.false_or]

/-- Appending a fresh entry makes a lookup of its key find it. -/
theorem mapGet_append_fresh {β : Type} (k : String) (v : β) :
    ∀ m : List (String × β), mapContains m k = false →
      mapGet (m ++ [(k, v)]) k = some v := by
  intro m
  induction m with
  | nil => intro _; rw [List.nil_append, mapGet, if_pos rfl]
  | cons e rest ih =>
    intro hc
    simp only [mapContains, List.any_cons, Bool.or_eq_false_iff] at hc
    rw [List.cons_append, mapGet, if_neg (by simpa using hc.1)]
    exact ih (by simpa [mapContains] using hc.2)

/-- A lookup after `mapSet` finds the value just set. -/
theorem mapGet_mapSet {β : Type} (m : List (String × β)) (k : String)
    (v : β) : mapGet (mapSet m k v) k = some v := by
  rw [mapSet]
  by_cases hc : mapContains m k
  · rw [if_pos hc, mapGet_map_replace, if_pos hc]
  · rw [if_neg hc, mapGet_append_fresh k v m (by simpa using hc)]

/-- `mapSet` preserves an entry-wise invariant the new value satisfies. -/
theorem mapInvariant_mapSet (m : ThreadMap) (k : String) (v : ThreadOutcome)
    (hm : mapInvariant m) (hv : threadInvariant v) :
    mapInvariant (mapSet m k v) := by
  intro e he
  rcases mem_mapSet m k v e he with h | h
  · rw [h]; exact hv
  · exact hm e h

/-- Claim C10: every thread-table write path preserves the mutual-exclusion
invariant (`isDeferred` exactly when the ticketId is unpopulated) — the
new-message created/duplicate and deferred paths, the orphan-thread path,
the deferred-upgrade path, the TTL sweep and deletion — and the
deferred-upgrade path updates the existing entry in place, populating the
ticket fields and flipping `isDeferred` to false while keeping the rest of
the entry. -/
theorem thread_outcome_invariant (thrMap : ThreadMap)
    (msgTs msgUser msgText threadTs userId k : String) (r : TriageResult)
    (now : Nat) (hinv : mapInvariant thrMap) :
    (mapInvariant (newMessageThreadUpdate thrMap msgTs msgUser msgText r now) ∧
     mapInvariant (orphanThreadUpdate thrMap threadTs userId r now) ∧
     mapInvariant (deferredFollowupUpdate thrMap threadTs r) ∧
     mapInvariant (cleanupOldThreadMappings now thrMap) ∧
     mapInvariant (mapDelete thrMap k)) ∧
    (∀ existing, mapGet thrMap threadTs = some existing →
      r.action = .created → ¬r.ticketId = "" →
      mapGet (deferredFollowupUpdate thrMap threadTs r) threadTs =
        some ⟨r.ticketId, jsOr r.ticketIdentifier r.ticketId,
              existing.createdAt, existing.isDuplicate, false,
              existing.originalContext, existing.originalReporterId⟩) := by
  constructor
  · refine ⟨?_, ?_, ?_, ?_, ?_⟩
    · rw [newMessageThreadUpdate]
      split
      case isTrue hg =>
        apply mapInvariant_mapSet _ _ _ hinv
        simp only [Bool.and_eq_true, Bool.or_eq_true, beq_iff_eq,
          bne_iff_ne, Bool.not_eq_true, Bool.not_eq_eq_eq_not,
          Bool.not_true, beq_eq_false_iff_ne] at hg
        rw [threadInvariant]
        simp only [Bool.false_eq_true, false_iff]
        rw [jsOr]
        rcases hg.2 with h | h
        · rw [if_pos h]; exact h
        · by_cases h1 : r.ticketId = ""
          · rw [if_neg (by simp [h1])]; exact h
          · rw [if_pos h1]; exact h1
      case isFalse =>
        split
        case isTrue =>
          apply mapInvariant_mapSet _ _ _ hinv
          rw [threadInvariant]
          simp
        case isFalse => exact hinv
    · rw [orphanThreadUpdate]
      split
      case isTrue hg =>
        apply mapInvariant_mapSet _ _ _ hinv
        simp only [Bool.and_eq_true, Bool.not_eq_eq_eq_not, Bool.not_true,
          beq_eq_false_iff_ne] at hg
        rw [threadInvariant]
        simp only [Bool.false_eq_true, false_iff]
        exact hg.2
      case isFalse => exact hinv
    · rw [deferredFollowupUpdate]
      split
      case isTrue hg =>
        cases hget : mapGet thrMap threadTs with
        | none => exact hinv
        | some existing =>
          apply mapInvariant_mapSet _ _ _ hinv
          simp only [Bool.and_eq_true, beq_iff_eq, Bool.not_eq_eq_eq_not,
            Bool.not_true, beq_eq_false_iff_ne] at hg
          rw [threadInvariant]
          simp only [Bool.false_eq_true, false_iff]
          exact hg.2
      case isFalse => exact hinv
    · intro e he
      exact hinv e (List.mem_filter.mp he).1
    · intro e he
      exact hinv e (List.mem_filter.mp he).1
  · intro existing hget hact htid
    rw [deferredFollowupUpdate,
      if_pos (by simp [hact, htid]), hget, mapGet_mapSet]

/-- Witness for C10 at a concrete deferred entry upgraded by a `created`
verdict carrying ticket `ENG-9`. -/
theorem thread_outcome_invariant_witness :
    mapInvariant (deferredFollowupUpdate
      [("100.000001", deferredThreadOutcome)] "100.000001"
      ⟨.created, "ticket-uuid-9", "ENG-9", none⟩) ∧
    mapGet (deferredFollowupUpdate [("100.000001", deferredThreadOutcome)]
      "100.000001" ⟨.created, "ticket-uuid-9", "ENG-9", none⟩)
      "100.000001" =
      some ⟨"ticket-uuid-9", jsOr "ENG-9" "ticket-uuid-9",
            deferredThreadOutcome.createdAt,
            deferredThreadOutcome.isDuplicate, false,
            deferredThreadOutcome.originalContext,
            deferredThreadOutcome.originalReporterId⟩ := by
  obtain ⟨⟨_, _, hc, _, _⟩, hd⟩ :=
    thread_outcome_invariant [("100.000001", deferredThreadOutcome)]
      "100.000001" "U1" "please hold off" "100.000001" "U1" "100.000001"
      ⟨.created, "ticket-uuid-9", "ENG-9", none⟩ 0
      (by intro e he; simp at he; rw [he]; rw [threadInvariant]; simp [deferredThreadOutcome])
  exact ⟨hc, hd deferredThreadOutcome (by decide) rfl (by decide)⟩

end Triage
